import Mathlib

/-!
Shallow embedding of `bedsmi.py`, a terminal GPU dashboard that polls remote
hosts over SSH and renders a table.  Pure data transformations (line parsing,
memory formatting, table-row construction) are embedded as Lean functions;
the per-host monitor loop body (`server_loop`, one iteration of its
`while True` loop) is embedded as a state-transition function over an
explicit environment describing the outcome of the remote calls; the global
observation store (`server_states`) is an association list driven by a trace
of per-host events.  Python exceptions are modelled with `Except`, Python's
`datetime.now()` timestamps as `Nat` instants.
-/

deriving instance DecidableEq for Except

namespace BedSmi

/-- Mirrors `ServerInfo = NamedTuple(..., [("address", str), ("check_err", bool)])`
(bedsmi.py line 8). -/
structure ServerInfo where
  address : String
  check_err : Bool
deriving Repr, DecidableEq

/-- One entry of the `server_states` dict: `{"gpus": [...], "status": ...,
"last_updated": ...}` (bedsmi.py lines 16, 47-49).  `gpus` holds the raw
stored output lines, `last_updated` is absent (`none`) until the first
successful poll. -/
structure ServerState where
  gpus : List String
  status : String
  last_updated : Option Nat
deriving Repr, DecidableEq

/-- Status markup strings exactly as written by the source. -/
def statusWaiting : String := "[dim]Waiting...[/dim]"

def statusConnecting : String := "[dim]Connecting...[/dim]"

def statusOutputError : String := "[red]Output Error[/red]"

def statusOK : String := "OK"

/-- The default entry `{"gpus": [], "status": "[dim]Waiting...[/dim]"}`
created at the top of `server_loop` (bedsmi.py line 16). -/
def waitingState : ServerState :=
  { gpus := [], status := statusWaiting, last_updated := none }

/-- The exceptions caught by `server_loop`'s handler
(`OSError, asyncssh.Error, asyncio.TimeoutError`, bedsmi.py line 56).
`timeoutError` is `asyncio.TimeoutError`, `processError` is
`asyncssh.ProcessError` (the `check=True` nonzero-exit failure), and
`otherError msg` is any other transport-level `OSError`/`asyncssh.Error`
whose `str(e)` is `msg`. -/
inductive Exc where
  | timeoutError
  | processError
  | otherError (msg : String)
deriving Repr, DecidableEq

/-- The status string the handler stores for an exception
(bedsmi.py lines 59-62): `ProcessError` and `TimeoutError` render as
`Cmd Error: <type name>`, everything else as `Conn Error: <str(e)>`. -/
def errorMsg : Exc → String
  | .timeoutError => "[red]Cmd Error: TimeoutError[/red]"
  | .processError => "[red]Cmd Error: ProcessError[/red]"
  | .otherError m => "[red]Conn Error: " ++ m ++ "[/red]"

/-- A live SSH connection handle (`conn`); identity suffices for the model. -/
abbrev Session := Nat

/-- The value of `result.stdout` after `conn.run`: either a `str` (the normal
case) or some non-`str` value, which the source treats as an output error
(bedsmi.py lines 46, 50-52). -/
inductive StdoutVal where
  | strVal (s : String)
  | nonStr
deriving Repr, DecidableEq

/-- Outcome of `await conn.run(cmd, check=True, timeout=5)`: either it returns
a result whose stdout is `v`, or it raises one of the caught exceptions. -/
inductive RunOutcome where
  | output (v : StdoutVal)
  | raised (e : Exc)
deriving Repr, DecidableEq

/-- The environment of one loop iteration: what `asyncssh.connect` would
yield were it called this cycle, and what `conn.run` would yield. -/
structure CycleEnv where
  connectRes : Except Exc Session
  runRes : RunOutcome
deriving Repr

/-- Whitespace per Python `str.strip()` (the characters that occur here). -/
def pyIsSpace (c : Char) : Bool :=
  c = ' ' ∨ c = '\t' ∨ c = '\n' ∨ c = '\r'

/-- Python `str.strip()` on the character list. -/
def pyStripChars (cs : List Char) : List Char :=
  ((cs.dropWhile pyIsSpace).reverse.dropWhile pyIsSpace).reverse

/-- Python `str.strip()`. -/
def pyStrip (s : String) : String := String.mk (pyStripChars s.data)

/-- If `pre` is a prefix of `cs`, the remainder after it. -/
def stripPre : List Char → List Char → Option (List Char)
  | [], cs => some cs
  | _ :: _, [] => none
  | p :: ps, c :: cs => if p = c then stripPre ps cs else none

/-- Python `str.split(sep)` for a non-empty separator, on character lists:
scan left to right, cutting at each non-overlapping occurrence of `sep`.
Structural recursion on a fuel that bounds the input length (each step
consumes at least one character, so the fuel is never exhausted when
`fuel ≥ cs.length`). -/
def splitListFuel (sep : List Char) : Nat → List Char → List Char → List (List Char)
  | 0, cs, acc => [acc.reverse ++ cs]
  | fuel + 1, cs, acc =>
      match cs with
      | [] => [acc.reverse]
      | c :: rest =>
          match stripPre sep cs with
          | some rest2 => acc.reverse :: splitListFuel sep fuel rest2 []
          | none => splitListFuel sep fuel rest (c :: acc)

/-- Python `s.split(sep)` for a non-empty separator.  `"".split(sep)` is
`[""]`, as in Python. -/
def pySplitOn (sep : String) (s : String) : List String :=
  (splitListFuel sep.data (s.data.length + 1) s.data []).map String.mk

/-- `result.stdout.strip().split("\n")` (bedsmi.py line 47).  Note that for
empty stdout this yields `[""]`, a one-element list holding a blank line,
exactly as Python's `"".split("\n")` does. -/
def splitStdout (out : String) : List String :=
  pySplitOn "\n" (pyStrip out)

/-- Lines 40-42 of `server_loop`: at the top of the `try` block the status is
set to `Connecting...` when `conn is None`; when a live connection exists
nothing is written at this point (the prior status is left as it was). -/
def entryStatus (conn : Option Session) (st : ServerState) : ServerState :=
  match conn with
  | none => { st with status := statusConnecting }
  | some _ => st

/-- The exception handler's store writes (bedsmi.py lines 56-71): clear
`gpus`, then store the formatted error message as the status. -/
def failState (st : ServerState) (e : Exc) : ServerState :=
  { st with gpus := [], status := errorMsg e }

/-- Lines 45-52 of `server_loop`, run with a live connection `s`:
on a `str` stdout store the split lines, `last_updated = now` and status
`OK`; on a non-`str` stdout store only the `Output Error` status (readings
and `last_updated` are left untouched); on a raised exception run the handler,
which clears readings, closes and discards the connection (`conn = None`,
lines 64-69) and stores the error status. -/
def runQuery (s : Session) (st : ServerState) (env : CycleEnv) (now : Nat) :
    Option Session × ServerState :=
  match env.runRes with
  | .output (.strVal out) =>
      (some s,
        { st with gpus := splitStdout out, last_updated := some now, status := statusOK })
  | .output .nonStr =>
      (some s, { st with status := statusOutputError })
  | .raised e => (none, failState st e)

/-- One full iteration of `server_loop`'s `while True` body
(bedsmi.py lines 37-73) for one host: entry status write, reconnect when no
connection exists (a failed `asyncssh.connect` lands in the same handler with
`conn` still `None`, so nothing is closed and the connection stays absent),
then the query.  Returns the connection and store entry left for the next
cycle. -/
def pollCycle (conn : Option Session) (st : ServerState) (env : CycleEnv)
    (now : Nat) : Option Session × ServerState :=
  match conn with
  | none =>
      match env.connectRes with
      | .error e => (none, failState (entryStatus none st) e)
      | .ok s => runQuery s (entryStatus none st) env now
  | some s => runQuery s (entryStatus (some s) st) env now

/-- Exceptions the rendering path can raise: `AssertionError` from the
arity `assert`s (bedsmi.py lines 107, 112) and `ValueError` from `int(...)`
inside `wrap_mib_to_gib` (line 77). -/
inductive RenderErr where
  | assertionError
  | valueError
deriving Repr, DecidableEq

/-- Value of a list of decimal digit characters. -/
def digitsToNat (cs : List Char) : Nat :=
  cs.foldl (fun a c => a * 10 + (c.toNat - 48)) 0

/-- Python `int(s)` on a decimal string: strip whitespace, optional single
sign, then one or more digits; anything else raises `ValueError` (`none`).
(Python also accepts underscore digit separators; those never occur in
`nvidia-smi` output and are not modelled.) -/
def pyParseInt (s : String) : Option Int :=
  let t := pyStripChars s.data
  let (sign, digits) :=
    match t with
    | '-' :: rest => (true, rest)
    | '+' :: rest => (false, rest)
    | _ => (false, t)
  if digits ≠ [] ∧ digits.all Char.isDigit then
    some (if sign then -(digitsToNat digits : Int) else (digitsToNat digits : Int))
  else none

/-- Left-pad with spaces to a minimum width, as `>` alignment does. -/
def padLeft (w : Nat) (s : String) : String :=
  String.mk (List.replicate (w - s.length) ' ') ++ s

/-- The number of tenths printed by Python's `.1f` for the exact value
`m / 1024` (i.e. `5*m / 512` tenths): the floor, bumped by one when the
remainder exceeds half a unit, ties (remainder exactly half, which happens
precisely when `m ≡ 256 [MOD 512]`) resolved toward the even count, as
IEEE-754 round-half-even does. -/
def pyTenths (m : Nat) : Nat :=
  if 2 * (5 * m % 512) < 512 then 5 * m / 512
  else if 512 < 2 * (5 * m % 512) then 5 * m / 512 + 1
  else if (5 * m / 512) % 2 = 0 then 5 * m / 512 else 5 * m / 512 + 1

/-- Python `f"{mib/1024:>4.1f}"` (bedsmi.py lines 78-79), modelled exactly:
`mib / 1024` is a binary float whose value is exactly `mib / 1024` whenever
`|mib| < 2^53` (division by a power of two only shifts the exponent), and
`.1f` prints the correctly rounded nearest tenth with ties to even
(`256/1024 = 0.25` prints as `0.2`, `768/1024 = 0.75` as `0.8`), the sign
re-attached to the magnitude (`-0.0048` prints as `-0.0`). -/
def formatGib1f (mib : Int) : String :=
  let d := pyTenths mib.natAbs
  let core := (if mib < 0 then "-" else "") ++ toString (d / 10) ++ "." ++ toString (d % 10)
  padLeft 4 core

/-- `wrap_mib_to_gib` (bedsmi.py lines 76-79): `int(mib_str)` then format
`mib/1024` to one decimal, right-aligned to width 4.  A non-integer string
raises `ValueError`. -/
def wrap_mib_to_gib (mib_str : String) : Except RenderErr String :=
  match pyParseInt mib_str with
  | none => .error .valueError
  | some mib => .ok (formatGib1f mib)

/-- Round a rational to the nearest integer, ties to even — the rounding
that `.1f` float formatting performs on an exactly representable value. -/
def roundHalfEven (x : ℚ) : ℤ :=
  if x - ⌊x⌋ < 1 / 2 then ⌊x⌋
  else if 1 / 2 < x - ⌊x⌋ then ⌊x⌋ + 1
  else if ⌊x⌋ % 2 = 0 then ⌊x⌋ else ⌊x⌋ + 1

/-- Modelled from the spec's words, for comparison with `wrap_mib_to_gib`:
"the value divided by 1024, formatted to one decimal place and right-aligned
to a minimum width of 4 characters" — the value divided by 1024 as an exact
rational, rounded to the nearest number of tenths (ties to even, the
formatting convention of the implementation language), printed as
`<integer part>.<tenths digit>` and padded. -/
def specGibFormat (n : Nat) : String :=
  let tenths : ℤ := roundHalfEven ((n : ℚ) * 10 / 1024)
  padLeft 4 (toString (tenths / 10) ++ "." ++ toString (tenths % 10))

/-- The fields `make_table` extracts from one stored line (bedsmi.py lines
105-114): split on `", "`, check arity (`== 4` under `check_err`, `>= 3`
otherwise, the `assert`s), take the first fields, and under `check_err`
derive `broken` from the fourth field being `"Yes"`. -/
structure ParsedGpu where
  util : String
  memUsed : String
  memTotal : String
  broken : Bool
deriving Repr, DecidableEq

/-- Field extraction for one stored line, `assert` failures as
`AssertionError` (bedsmi.py lines 105-114). -/
def parseGpuLine (cf : Bool) (line : String) : Except RenderErr ParsedGpu :=
  let parts := pySplitOn ", " line
  if cf then
    if parts.length = 4 then
      .ok ⟨parts.getD 0 "", parts.getD 1 "", parts.getD 2 "", parts.getD 3 "" == "Yes"⟩
    else .error .assertionError
  else
    if 3 ≤ parts.length then
      .ok ⟨parts.getD 0 "", parts.getD 1 "", parts.getD 2 "", false⟩
    else .error .assertionError

/-- One row of the rendered table: the arguments of `table.add_row`
(bedsmi.py lines 83, 98, 123). -/
structure Row where
  server : String
  gpu : String
  util : String
  memory : String
  status : String
deriving Repr, DecidableEq

/-- Status refinement at render time (bedsmi.py lines 90-95): an `OK` status
with a recorded `last_updated` becomes `N s ago` computed against the render
instant; anything else is shown as stored. -/
def displayStatus (st : ServerState) (now : Nat) : String :=
  if st.status = statusOK then
    match st.last_updated with
    | some t => "[green]" ++ toString (now - t) ++ "s ago[/green]"
    | none => statusOK
  else st.status

/-- The `...` row emitted when a host has no stored lines (bedsmi.py line 98). -/
def placeholderRow (name status : String) : Row :=
  ⟨name, "...", "...", "...", status⟩

/-- One `table.add_row` for a stored GPU line (bedsmi.py lines 105-123):
parse the fields, render `ERR` markers when broken, otherwise append `%` to
the utilization and convert both memory fields; the host name and status
appear only on the row whose stored index is 0. -/
def renderGpuRow (name : String) (cf : Bool) (status : String) (idx : Nat)
    (line : String) : Except RenderErr Row :=
  match parseGpuLine cf line with
  | .error e => .error e
  | .ok p =>
    if p.broken then
      .ok ⟨if idx = 0 then name else "", toString idx,
           "[red]ERR[/red]", "[red]ERR[/red]",
           if idx = 0 then status else ""⟩
    else
      match wrap_mib_to_gib p.memUsed with
      | .error e => .error e
      | .ok u =>
        match wrap_mib_to_gib p.memTotal with
        | .error e => .error e
        | .ok t =>
          .ok ⟨if idx = 0 then name else "", toString idx,
               p.util ++ "%", u ++ " / " ++ t ++ " GiB",
               if idx = 0 then status else ""⟩

/-- The rows `make_table` emits for one host (bedsmi.py lines 85-123): a
single placeholder row when the stored list is empty, otherwise one row per
stored line whose `strip()` is non-blank (blank lines are skipped but still
consume their `enumerate` index).  A failed `assert` or `int()` aborts the
whole table. -/
def renderServer (name : String) (info : ServerInfo) (st : ServerState)
    (now : Nat) : Except RenderErr (List Row) :=
  let status := displayStatus st now
  if st.gpus = [] then .ok [placeholderRow name status]
  else
    (st.gpus.enum.filter (fun p => ¬ pyStrip p.2 = "")).mapM
      (fun p => renderGpuRow name info.check_err status p.1 p.2)

/-- The global store: `server_states`, host name to entry. -/
abbrev Store := List (String × ServerState)

/-- `make_table` (bedsmi.py lines 82-125): iterate the configured servers in
declared order, defaulting a missing entry to the `Waiting` placeholder
state (line 86), and concatenate each host's rows. -/
def make_table (servers : List (String × ServerInfo)) (states : Store)
    (now : Nat) : Except RenderErr (List Row) :=
  match servers.mapM
      (fun p => renderServer p.1 p.2 (((states.lookup p.1).getD waitingState)) now) with
  | .error e => .error e
  | .ok rss => .ok rss.flatten

/-- The arity check of `make_table` on one stored line (the `assert`s,
bedsmi.py lines 107 and 112): exactly 4 fields under `check_err`, at least
3 otherwise. -/
def arityOk (cf : Bool) (line : String) : Bool :=
  let parts := pySplitOn ", " line
  if cf then decide (parts.length = 4) else decide (3 ≤ parts.length)

/-- Whether a status string carries the transport-error tag
`Conn Error: ` that the handler uses for non-`ProcessError`,
non-`TimeoutError` failures (bedsmi.py line 62). -/
def isConnErrorMsg (s : String) : Bool :=
  (stripPre "[red]Conn Error: ".data s.data).isSome

/-- An event of one host's `server_loop` task, as interleaved by the
scheduler: `initEntry` is the entry creation at the top of `server_loop`
(bedsmi.py lines 15-16), `poll` one iteration of the `while` body, carrying
the task-local connection state and the cycle's remote outcomes. -/
inductive LoopEv where
  | initEntry
  | poll (conn : Option Session) (env : CycleEnv) (now : Nat)

/-- Effect of one host event on `server_states`: entry creation inserts the
default `Waiting` entry when absent; a poll rewrites that host's entry
through `pollCycle`. -/
def applyEv (store : Store) : String × LoopEv → Store
  | (h, .initEntry) =>
      if (store.lookup h).isSome then store else (h, waitingState) :: store
  | (h, .poll conn env now) =>
      store.map (fun p => if p.1 = h then (h, (pollCycle conn p.2 env now).2) else p)

/-- Run a trace of interleaved host events against an initially empty store
(the module-level `server_states = {}`, bedsmi.py line 11). -/
def runTrace (tr : List (String × LoopEv)) : Store :=
  tr.foldl applyEv []

/-- Traces realizable by the program: every event belongs to a configured
host, and a host polls only after its own entry creation ran (within one
`server_loop` coroutine lines 15-16 precede the loop).  Nothing constrains
the interleaving across hosts: under asyncio each task runs only once the
event loop is reached, so one host's first poll may well precede another
host's entry creation. -/
def wfTrace (cfg : List String) (tr : List (String × LoopEv)) : Prop :=
  (∀ e ∈ tr, e.1 ∈ cfg) ∧
  (∀ l1 h conn env now l2, tr = l1 ++ (h, .poll conn env now) :: l2 →
    (h, LoopEv.initEntry) ∈ l1)

/-! ## Helper lemmas -/

theorem intToString_natCast (m : ℕ) : toString (m : ℤ) = toString m := rfl

/-- The code's integer tenths `pyTenths` agree with the spec-side rational
round-half-even for every non-negative MiB value. -/
theorem roundHalfEven_tenths (n : ℕ) :
    roundHalfEven ((n : ℚ) * 10 / 1024) = (pyTenths n : ℤ) := by
  have hx : (n : ℚ) * 10 / 1024 = ((5 * n : ℕ) : ℚ) / ((512 : ℕ) : ℚ) := by
    push_cast
    ring
  have hfloor : ⌊(n : ℚ) * 10 / 1024⌋ = ((5 * n / 512 : ℕ) : ℤ) := by
    rw [hx, Rat.floor_natCast_div_natCast, Int.natCast_div]
  have hqr : 5 * n = 512 * (5 * n / 512) + 5 * n % 512 := (Nat.div_add_mod _ _).symm
  have h5 : ((5 * n : ℕ) : ℚ) = 512 * ((5 * n / 512 : ℕ) : ℚ) + ((5 * n % 512 : ℕ) : ℚ) := by
    exact_mod_cast congrArg (fun k : ℕ => (k : ℚ)) hqr
  have hcast : (((5 * n / 512 : ℕ) : ℤ) : ℚ) = ((5 * n / 512 : ℕ) : ℚ) :=
    Int.cast_natCast _
  have hsub : (n : ℚ) * 10 / 1024 - (((5 * n / 512 : ℕ) : ℤ) : ℚ) =
      ((5 * n % 512 : ℕ) : ℚ) / 512 := by
    rw [hx, hcast, h5]
    ring
  unfold roundHalfEven pyTenths
  rw [hfloor, hsub]
  rcases Nat.lt_trichotomy (2 * (5 * n % 512)) 512 with h1 | h1 | h1
  · have hc : ((5 * n % 512 : ℕ) : ℚ) / 512 < 1 / 2 := by
      rw [div_lt_div_iff (by norm_num : (0:ℚ) < 512) (by norm_num : (0:ℚ) < 2)]
      have h1q : ((2 * (5 * n % 512) : ℕ) : ℚ) < ((512 : ℕ) : ℚ) := by exact_mod_cast h1
      push_cast at h1q
      linarith
    rw [if_pos hc, if_pos h1]
  · have hhalf : ((5 * n % 512 : ℕ) : ℚ) / 512 = 1 / 2 := by
      have hr256 : 5 * n % 512 = 256 := by omega
      rw [hr256]
      norm_num
    rw [hhalf, if_neg (lt_irrefl _), if_neg (lt_irrefl _),
      if_neg (by omega : ¬ (2 * (5 * n % 512) < 512)),
      if_neg (by omega : ¬ (512 < 2 * (5 * n % 512)))]
    by_cases hpar : (5 * n / 512) % 2 = 0
    · have hparZ : ((5 * n / 512 : ℕ) : ℤ) % 2 = 0 := by omega
      rw [if_pos hparZ, if_pos hpar]
    · have hparZ : ¬ (((5 * n / 512 : ℕ) : ℤ) % 2 = 0) := by omega
      rw [if_neg hparZ, if_neg hpar]
      push_cast
      ring
  · have hc2 : (1 : ℚ) / 2 < ((5 * n % 512 : ℕ) : ℚ) / 512 := by
      rw [div_lt_div_iff (by norm_num : (0:ℚ) < 2) (by norm_num : (0:ℚ) < 512)]
      have h1q : ((512 : ℕ) : ℚ) < ((2 * (5 * n % 512) : ℕ) : ℚ) := by exact_mod_cast h1
      push_cast at h1q
      linarith
    rw [if_neg (not_lt.mpr (le_of_lt hc2)), if_pos hc2,
      if_neg (by omega : ¬ (2 * (5 * n % 512) < 512)),
      if_pos (by omega : 512 < 2 * (5 * n % 512))]
    push_cast
    ring

/-- The code's formatter agrees with the spec-side formatting for every
non-negative MiB value. -/
theorem format_eq_spec (n : ℕ) : formatGib1f (n : ℤ) = specGibFormat n := by
  unfold formatGib1f specGibFormat
  have hneg : ¬ ((n : ℤ) < 0) := not_lt.mpr (Int.natCast_nonneg n)
  simp only [roundHalfEven_tenths, if_neg hneg, Int.natAbs_ofNat]
  have h10 : (10 : ℤ) = ((10 : ℕ) : ℤ) := rfl
  rw [h10, ← Int.natCast_div, ← Int.natCast_mod, intToString_natCast, intToString_natCast]
  have hpre : ("" : String) ++ toString (pyTenths n / 10) = toString (pyTenths n / 10) := by
    simp
  rw [hpre]

theorem stripPre_append (l rest : List Char) : stripPre l (l ++ rest) = some rest := by
  induction l with
  | nil => rfl
  | cons c cs ih => simp [stripPre, ih]

theorem parseGpuLine_assert_fails (cf : Bool) (line : String)
    (h : arityOk cf line = false) :
    parseGpuLine cf line = Except.error RenderErr.assertionError := by
  cases cf
  · have h3 : ¬ (3 ≤ (pySplitOn ", " line).length) := by
      simpa [arityOk] using h
    simp [parseGpuLine, h3]
  · have h4 : ¬ ((pySplitOn ", " line).length = 4) := by
      simpa [arityOk] using h
    simp [parseGpuLine, h4]

theorem mapM_loop_ok_length {ε α β : Type} (f : α → Except ε β) :
    ∀ (xs : List α) (acc ys : List β),
      List.mapM.loop f xs acc = Except.ok ys → ys.length = acc.length + xs.length := by
  intro xs
  induction xs with
  | nil =>
      intro acc ys h
      have : acc.reverse = ys := by
        simpa [List.mapM.loop, pure, Except.pure] using h
      simp [← this]
  | cons x xs ih =>
      intro acc ys h
      cases hf : f x with
      | error e =>
          rw [List.mapM.loop, hf] at h
          simp [Bind.bind, Except.bind] at h
      | ok b =>
          rw [List.mapM.loop, hf] at h
          have h2 : List.mapM.loop f xs (b :: acc) = Except.ok ys := by
            simpa [Bind.bind, Except.bind] using h
          have := ih (b :: acc) ys h2
          simp [this]
          omega

theorem mapM_ok_length {ε α β : Type} (f : α → Except ε β) (xs : List α)
    (ys : List β) (h : xs.mapM f = Except.ok ys) : ys.length = xs.length := by
  have := mapM_loop_ok_length f xs [] ys (by simpa [List.mapM] using h)
  simpa using this

theorem enum_filter_blank_length (l : List String) :
    ∀ n : ℕ,
      ((List.enumFrom n l).filter (fun p => ¬ pyStrip p.2 = "")).length =
      (l.filter (fun g => ¬ pyStrip g = "")).length := by
  induction l with
  | nil => intro n; rfl
  | cons a l ih =>
      intro n
      have ih2 := ih (n + 1)
      by_cases hb : pyStrip a = "" <;>
        simp_all [List.enumFrom, List.filter_cons]

theorem renderGpuRow_ok_fields (name : String) (cf : Bool) (status : String)
    (idx : ℕ) (line : String) (r : Row)
    (h : renderGpuRow name cf status idx line = Except.ok r) :
    r.server = (if idx = 0 then name else "") ∧
    r.status = (if idx = 0 then status else "") := by
  unfold renderGpuRow at h
  split at h
  · exact Except.noConfusion h
  · split at h
    · injection h with h2
      subst h2
      exact ⟨rfl, rfl⟩
    · split at h
      · exact Except.noConfusion h
      · split at h
        · exact Except.noConfusion h
        · injection h with h2
          subst h2
          exact ⟨rfl, rfl⟩

theorem lookup_some_mem {v : ServerState} (h : String) :
    ∀ store : Store, store.lookup h = some v → (h, v) ∈ store := by
  intro store
  induction store with
  | nil => intro hh; cases hh
  | cons p ps ih =>
      intro hh
      obtain ⟨k, w⟩ := p
      by_cases hk : h == k
      · simp only [List.lookup, hk, if_pos] at hh
        have hk2 : h = k := by simpa using hk
        subst hk2
        simp_all
      · simp only [List.lookup, hk] at hh
        simp at hk
        exact List.mem_cons_of_mem _ (ih (by simpa [hk] using hh))

theorem lookup_map_key_preserving (f : String × ServerState → String × ServerState)
    (hf : ∀ p, (f p).1 = p.1) (h : String) :
    ∀ store : Store, ((store.map f).lookup h).isSome = (store.lookup h).isSome := by
  intro store
  induction store with
  | nil => rfl
  | cons p ps ih =>
      show ((f p :: ps.map f).lookup h).isSome = _
      by_cases hk : h == p.1
      · simp [List.lookup, hf, hk]
      · simp [List.lookup, hf, hk, ih]

theorem applyEv_preserves_lookup (store : Store) (ev : String × LoopEv) (h : String)
    (hs : (store.lookup h).isSome = true) :
    ((applyEv store ev).lookup h).isSome = true := by
  obtain ⟨g, e⟩ := ev
  cases e with
  | initEntry =>
      unfold applyEv
      dsimp only
      by_cases hg : (store.lookup g).isSome
      · rw [if_pos hg]; exact hs
      · rw [if_neg hg]
        by_cases hk : h == g
        · simp [List.lookup, hk]
        · simp [List.lookup, hk, hs]
  | poll conn env now =>
      unfold applyEv
      dsimp only
      rw [lookup_map_key_preserving]
      · exact hs
      · intro p
        by_cases hp : p.1 = g <;> simp [hp]

theorem runTrace_preserves_lookup (tr : List (String × LoopEv)) :
    ∀ (store : Store) (h : String), (store.lookup h).isSome = true →
      ((tr.foldl applyEv store).lookup h).isSome = true := by
  induction tr with
  | nil => intro store h hs; exact hs
  | cons ev tr ih =>
      intro store h hs
      exact ih (applyEv store ev) h (applyEv_preserves_lookup store ev h hs)

theorem applyEv_init_lookup (store : Store) (h : String) :
    ((applyEv store (h, LoopEv.initEntry)).lookup h).isSome = true := by
  unfold applyEv
  dsimp only
  by_cases hg : (store.lookup h).isSome
  · rw [if_pos hg]; exact hg
  · rw [if_neg hg]
    simp [List.lookup]

theorem foldl_applyEv_keys_in (cfg : List String) :
    ∀ (tr : List (String × LoopEv)) (store : Store),
      (∀ e ∈ tr, e.1 ∈ cfg) → (∀ p ∈ store, p.1 ∈ cfg) →
      ∀ p ∈ tr.foldl applyEv store, p.1 ∈ cfg := by
  intro tr
  induction tr with
  | nil => intro store _ hst p hp; exact hst p hp
  | cons ev tr ih =>
      intro store htr hst p hp
      refine ih (applyEv store ev) (fun e he => htr e (List.mem_cons_of_mem _ he)) ?_ p hp
      intro q hq
      obtain ⟨g, e⟩ := ev
      have hg : g ∈ cfg := htr (g, e) (List.mem_cons_self _ _)
      cases e with
      | initEntry =>
          unfold applyEv at hq
          dsimp only at hq
          by_cases hl : (store.lookup g).isSome
          · rw [if_pos hl] at hq; exact hst q hq
          · rw [if_neg hl] at hq
            rcases List.mem_cons.mp hq with rfl | hq2
            · exact hg
            · exact hst q hq2
      | poll conn env now =>
          unfold applyEv at hq
          dsimp only at hq
          obtain ⟨r, hr, hqr⟩ := List.mem_map.mp hq
          subst hqr
          by_cases hp1 : r.1 = g
          · simp [hp1, hg]
          · simpa [hp1] using hst r hr

/-! ## Claims -/

/-- C9: `wrap_mib_to_gib` maps the input string `"2048"` to the
4-character right-aligned string `" 2.0"`, and on every decimal-integer
input whose value is the natural number `n` it returns exactly the
spec-side formatting of `n`: `n / 1024` rounded to one decimal place and
right-aligned to a minimum width of 4 characters (`specGibFormat`). -/
theorem wrap_mib_to_gib_matches_spec :
    wrap_mib_to_gib "2048" = Except.ok " 2.0" ∧
    ∀ (s : String) (n : ℕ), pyParseInt s = some (n : ℤ) →
      wrap_mib_to_gib s = Except.ok (specGibFormat n) := by
  refine ⟨by decide, ?_⟩
  intro s n h
  have hw : wrap_mib_to_gib s = Except.ok (formatGib1f (n : ℤ)) := by
    unfold wrap_mib_to_gib
    rw [h]
  rw [hw, format_eq_spec]

/-- Witness for C9 at the concrete decimal input `"2048"`. -/
theorem wrap_mib_to_gib_matches_spec_witness :
    pyParseInt "2048" = some ((2048 : ℕ) : ℤ) ∧
    wrap_mib_to_gib "2048" = Except.ok (specGibFormat 2048) :=
  ⟨rfl, wrap_mib_to_gib_matches_spec.2 "2048" 2048 rfl⟩

/-- C8: parsing `"45, 2048, 8192"` with `check_err = false` yields the
fields 45 / 2048 / 8192 with `broken = false` (the numeric values being
what `int()` recovers from the stored fields), parsing
`"10, 1024, 8192, Yes"` with `check_err = true` yields `broken = true`,
and two poll cycles fed the same raw stdout store identical line
sequences with identical parses, whatever states they started from. -/
theorem parse_round_trip :
    parseGpuLine false "45, 2048, 8192" = Except.ok ⟨"45", "2048", "8192", false⟩ ∧
    pyParseInt "45" = some 45 ∧
    pyParseInt "2048" = some 2048 ∧
    pyParseInt "8192" = some 8192 ∧
    parseGpuLine true "10, 1024, 8192, Yes" = Except.ok ⟨"10", "1024", "8192", true⟩ ∧
    ∀ (s1 s2 : Session) (st1 st2 : ServerState) (cr1 cr2 : Except Exc Session)
      (n1 n2 : ℕ) (out : String) (cf : Bool),
      (pollCycle (some s1) st1 ⟨cr1, .output (.strVal out)⟩ n1).2.gpus =
        (pollCycle (some s2) st2 ⟨cr2, .output (.strVal out)⟩ n2).2.gpus ∧
      (pollCycle (some s1) st1 ⟨cr1, .output (.strVal out)⟩ n1).2.gpus.map (parseGpuLine cf) =
        (pollCycle (some s2) st2 ⟨cr2, .output (.strVal out)⟩ n2).2.gpus.map (parseGpuLine cf) := by
  refine ⟨by decide, by decide, by decide, by decide, by decide, ?_⟩
  intro s1 s2 st1 st2 cr1 cr2 n1 n2 out cf
  exact ⟨rfl, rfl⟩

/-- C2 counterexample: the claim says a timed-out remote call records a
dedicated `Timeout` status distinct from the command-error status, but a
cycle whose `conn.run` raises `asyncio.TimeoutError` records
`[red]Cmd Error: TimeoutError[/red]` — the same `Cmd Error` styling (the
first 16 characters coincide) that a failed remote command
(`asyncssh.ProcessError`) gets, because the handler at bedsmi.py lines
59-60 tests `isinstance(e, (asyncssh.ProcessError, asyncio.TimeoutError))`
jointly. -/
theorem timeout_records_cmd_error_status :
    (pollCycle (some 0) waitingState ⟨.ok 0, .raised .timeoutError⟩ 0).2.status =
      "[red]Cmd Error: TimeoutError[/red]" ∧
    (pollCycle (some 0) waitingState ⟨.ok 0, .raised .processError⟩ 0).2.status =
      "[red]Cmd Error: ProcessError[/red]" ∧
    (pollCycle (some 0) waitingState ⟨.ok 0, .raised .timeoutError⟩ 0).2.status.data.take 16 =
      (pollCycle (some 0) waitingState ⟨.ok 0, .raised .processError⟩ 0).2.status.data.take 16 := by
  decide

/-- C2 amended: every raised failure of a poll cycle records `errorMsg e`
and clears the readings; a timeout records the command-error-styled string
`Cmd Error: TimeoutError` (not a dedicated `Timeout` status), a failed
remote command records `Cmd Error: ProcessError`, and a transport failure
records `Conn Error: <detail>`.  The three resulting strings are pairwise
distinct (the transport string is the only one carrying the
`Conn Error: ` tag, whatever the detail text). -/
theorem failure_status_mapping :
    (∀ (s : Session) (st : ServerState) (cr : Except Exc Session) (now : ℕ) (e : Exc),
      (pollCycle (some s) st ⟨cr, .raised e⟩ now).2.status = errorMsg e ∧
      (pollCycle (some s) st ⟨cr, .raised e⟩ now).2.gpus = []) ∧
    errorMsg .timeoutError = "[red]Cmd Error: TimeoutError[/red]" ∧
    errorMsg .processError = "[red]Cmd Error: ProcessError[/red]" ∧
    (∀ m, errorMsg (.otherError m) = "[red]Conn Error: " ++ m ++ "[/red]") ∧
    errorMsg .timeoutError ≠ errorMsg .processError ∧
    (∀ m, isConnErrorMsg (errorMsg (.otherError m)) = true) ∧
    isConnErrorMsg (errorMsg .timeoutError) = false ∧
    isConnErrorMsg (errorMsg .processError) = false := by
  refine ⟨fun s st cr now e => ⟨rfl, rfl⟩, rfl, rfl, fun m => rfl, by decide, ?_, by decide, by decide⟩
  intro m
  obtain ⟨md⟩ := m
  show (stripPre "[red]Conn Error: ".data ("[red]Conn Error: ".data ++ (md ++ "[/red]".data))).isSome = true
  rw [stripPre_append]
  rfl

/-- C3 counterexample: the claim says no successful reading survives a
subsequent failure, readings being cleared on every failure including
`OutputError`; but the `Output Error` branch (bedsmi.py lines 50-52) only
rewrites the status — a cycle whose `result.stdout` is not a `str` leaves
the previously stored readings and `last_updated` in place. -/
theorem output_error_keeps_readings :
    pollCycle (some 0) ⟨["45, 2048, 8192"], statusOK, some 3⟩ ⟨.ok 9, .output .nonStr⟩ 7 =
      (some 0, ⟨["45, 2048, 8192"], statusOutputError, some 3⟩) ∧
    (["45, 2048, 8192"] : List String) ≠ [] := by
  decide

/-- C3 amended: a successful cycle replaces the whole observation —
readings, `OK` status and `last_updated` — with values independent of the
prior state, so nothing stored before survives a success; every cycle that
ends in a raised failure (timeout, command error, transport error, or a
failed connect) clears the readings; but the `Output Error` branch leaves
the prior readings and `last_updated` untouched, changing only the
status. -/
theorem success_replaces_failure_clears :
    (∀ (s : Session) (st : ServerState) (cr : Except Exc Session) (now : ℕ) (out : String),
      (pollCycle (some s) st ⟨cr, .output (.strVal out)⟩ now).2 =
        ⟨splitStdout out, statusOK, some now⟩) ∧
    (∀ (s : Session) (st : ServerState) (cr : Except Exc Session) (now : ℕ) (e : Exc),
      (pollCycle (some s) st ⟨cr, .raised e⟩ now).2.gpus = []) ∧
    (∀ (st : ServerState) (e : Exc) (rr : RunOutcome) (now : ℕ),
      (pollCycle none st ⟨.error e, rr⟩ now).2.gpus = []) ∧
    (∀ (s : Session) (st : ServerState) (cr : Except Exc Session) (now : ℕ),
      (pollCycle (some s) st ⟨cr, .output .nonStr⟩ now).2 =
        { st with status := statusOutputError }) :=
  ⟨fun _ _ _ _ _ => rfl, fun _ _ _ _ _ => rfl,
   fun _ _ _ _ => rfl, fun _ _ _ _ => rfl⟩

/-- C4 counterexample: the claim says a successful poll with empty output
still yields exactly one placeholder row; but an empty stdout is stored as
`[""]` (Python's `"".split("\n")`), a non-empty list, so `make_table`'s
`if not gpus` placeholder branch is skipped and the single blank line is
then skipped by `if not gpu.strip(): continue` — the host gets zero rows,
not a placeholder. -/
theorem empty_output_success_renders_no_rows :
    (pollCycle (some 0) waitingState ⟨.ok 0, .output (.strVal "")⟩ 5).2.gpus = [""] ∧
    renderServer "a" ⟨"h", false⟩
      (pollCycle (some 0) waitingState ⟨.ok 0, .output (.strVal "")⟩ 5).2 5 =
      Except.ok [] ∧
    (Except.ok ([] : List Row) : Except RenderErr (List Row)) ≠
      Except.ok [placeholderRow "a"
        (displayStatus ((pollCycle (some 0) waitingState ⟨.ok 0, .output (.strVal "")⟩ 5).2) 5)] := by
  decide

/-- C4 amended: the renderer emits the single placeholder row exactly when
the host's stored line list is empty (the initial `Waiting` state or after a
failure cleared it); otherwise it emits one row per stored line whose
stripped form is non-blank; and in every emitted row the host name and
status text are carried exactly by a row built from stored index 0
(subsequent rows leave them blank).  A successful poll with empty output
stores the one-element list `[""]` and therefore yields no rows at all for
that host — not a placeholder row. -/
theorem renderer_row_structure :
    (∀ (name : String) (info : ServerInfo) (st : ServerState) (now : ℕ),
      st.gpus = [] →
      renderServer name info st now =
        Except.ok [placeholderRow name (displayStatus st now)]) ∧
    (∀ (name : String) (info : ServerInfo) (st : ServerState) (now : ℕ) (rows : List Row),
      renderServer name info st now = Except.ok rows → ¬ st.gpus = [] →
      rows.length = (st.gpus.filter (fun g => ¬ pyStrip g = "")).length) ∧
    (∀ (name status : String) (cf : Bool) (idx : ℕ) (line : String) (r : Row),
      renderGpuRow name cf status idx line = Except.ok r →
      r.server = (if idx = 0 then name else "") ∧
      r.status = (if idx = 0 then status else "")) := by
  refine ⟨?_, ?_, fun name status cf => renderGpuRow_ok_fields name cf status⟩
  · intro name info st now hg
    simp [renderServer, hg]
  · intro name info st now rows hr hne
    simp only [renderServer] at hr
    rw [if_neg hne] at hr
    have hlen := mapM_ok_length _ _ _ hr
    rw [hlen]
    exact enum_filter_blank_length st.gpus 0

/-- Witness for the amended C4: the placeholder for an empty stored list,
the one-row-per-non-blank-line count for `["7, 0, 1024", ""]`, and the
blank name/status columns of a row with stored index 1. -/
theorem renderer_row_structure_witness :
    renderServer "a" ⟨"h", false⟩ waitingState 0 =
      Except.ok [placeholderRow "a" (displayStatus waitingState 0)] ∧
    ([(⟨"b", "0", "7%", " 0.0 /  1.0 GiB", "X"⟩ : Row)].length =
      ((["7, 0, 1024", ""] : List String).filter (fun g => ¬ pyStrip g = "")).length) ∧
    ((⟨"", "1", "7%", " 0.0 /  1.0 GiB", ""⟩ : Row).server = (if (1 : ℕ) = 0 then "b" else "") ∧
     (⟨"", "1", "7%", " 0.0 /  1.0 GiB", ""⟩ : Row).status = (if (1 : ℕ) = 0 then "X" else "")) :=
  ⟨renderer_row_structure.1 "a" ⟨"h", false⟩ waitingState 0 rfl,
   renderer_row_structure.2.1 "b" ⟨"h", false⟩ ⟨["7, 0, 1024", ""], "X", none⟩ 0
     [⟨"b", "0", "7%", " 0.0 /  1.0 GiB", "X"⟩] (by decide) (by decide),
   renderer_row_structure.2.2 "b" "X" false 1 "7, 0, 1024"
     ⟨"", "1", "7%", " 0.0 /  1.0 GiB", ""⟩ (by decide)⟩

/-- C5 counterexample: the claim says the session is left unchanged after a
`Timeout`, reconnecting only after transport failures; but the handler
(bedsmi.py lines 64-69) closes and discards `conn` on every caught
exception — after a timed-out cycle the connection `7` is gone. -/
theorem session_discarded_on_timeout :
    (pollCycle (some 7) waitingState ⟨.ok 0, .raised .timeoutError⟩ 0).1 = none ∧
    (pollCycle (some 7) waitingState ⟨.ok 0, .raised .timeoutError⟩ 0).1 ≠ some 7 := by
  decide

/-- C5 amended: the live session is closed and discarded on every raised
failure of the query — timeout, command error and transport error alike —
and kept only when `conn.run` returns (both on a `str` stdout and on the
`Output Error` branch).  Reconnection is therefore forced by any caught
failure, not only by transport ones. -/
theorem session_kept_only_on_run_return :
    (∀ (s : Session) (st : ServerState) (cr : Except Exc Session) (now : ℕ) (e : Exc),
      (pollCycle (some s) st ⟨cr, .raised e⟩ now).1 = none) ∧
    (∀ (s : Session) (st : ServerState) (cr : Except Exc Session) (now : ℕ) (v : StdoutVal),
      (pollCycle (some s) st ⟨cr, .output v⟩ now).1 = some s) ∧
    (∀ (st : ServerState) (e : Exc) (rr : RunOutcome) (now : ℕ),
      (pollCycle none st ⟨.error e, rr⟩ now).1 = none) := by
  refine ⟨fun _ _ _ _ _ => rfl, fun s st cr now v => ?_, fun _ _ _ _ => rfl⟩
  cases v <;> rfl

/-- C6 counterexample: the claim says a cycle that starts with a live
session sets the stored status to `Refreshing`; but lines 40-42 of
bedsmi.py only write `Connecting...` when `conn is None` — with a live
session the entry write leaves whatever status was there before (two
different prior statuses stay two different statuses, so no fixed
`Refreshing` value is ever stored). -/
theorem no_refreshing_status :
    (entryStatus (some 0) ⟨[], statusOK, none⟩).status = statusOK ∧
    (entryStatus (some 0) ⟨[], statusWaiting, none⟩).status = statusWaiting ∧
    statusOK ≠ statusWaiting := by
  decide

/-- C1 counterexample: the claim says storing a line with the wrong field
count records `OutputError`, clears the readings, and never crashes the
renderer; but `server_loop` stores whatever lines the command printed and
records `OK` without looking at them (bedsmi.py lines 46-49), so the
two-field line `"45, 2048"` is stored under status `OK` with readings kept,
and `make_table`'s arity `assert` (line 112) then raises `AssertionError`
when rendering it. -/
theorem malformed_line_stored_ok_crashes_renderer :
    (pollCycle (some 0) waitingState ⟨.ok 0, .output (.strVal "45, 2048")⟩ 5).2.status = statusOK ∧
    (pollCycle (some 0) waitingState ⟨.ok 0, .output (.strVal "45, 2048")⟩ 5).2.status ≠
      statusOutputError ∧
    (pollCycle (some 0) waitingState ⟨.ok 0, .output (.strVal "45, 2048")⟩ 5).2.gpus =
      ["45, 2048"] ∧
    make_table [("a", ⟨"h", false⟩)]
      [("a", (pollCycle (some 0) waitingState ⟨.ok 0, .output (.strVal "45, 2048")⟩ 5).2)] 5 =
      Except.error RenderErr.assertionError := by
  decide

/-- C1 amended: a poll cycle whose command returns string output always
records status `OK` and stores the raw lines without any field-count
validation — `OutputError` is recorded only when the output is not a
string at all; when a stored non-blank line fails the active mode's arity
check (4 fields under `check_err`, at least 3 otherwise), the renderer does
not fall back to a placeholder: its `assert` fails and table construction
aborts with `AssertionError`. -/
theorem malformed_line_renders_assertion_failure :
    (∀ (s : Session) (st : ServerState) (cr : Except Exc Session) (now : ℕ) (out : String),
      (pollCycle (some s) st ⟨cr, .output (.strVal out)⟩ now).2.status = statusOK) ∧
    (∀ (name : String) (info : ServerInfo) (st : ServerState) (now : ℕ) (line : String),
      st.gpus = [line] → ¬ pyStrip line = "" → arityOk info.check_err line = false →
      renderServer name info st now = Except.error RenderErr.assertionError) := by
  refine ⟨fun _ _ _ _ _ => rfl, ?_⟩
  intro name info st now line hg hb ha
  unfold renderServer
  rw [hg]
  have henum : ([line].enum.filter (fun p => ¬ pyStrip p.2 = "")) = [(0, line)] := by
    show List.filter _ [(0, line)] = [(0, line)]
    simp [List.filter, hb]
  rw [if_neg (by simp : ¬ ([line] : List String) = [])]
  rw [henum]
  have hrow : renderGpuRow name info.check_err (displayStatus st now) 0 line =
      Except.error RenderErr.assertionError := by
    unfold renderGpuRow
    rw [parseGpuLine_assert_fails info.check_err line ha]
  simp [List.mapM, List.mapM.loop, hrow]

/-- Witness for the amended C1 at the concrete malformed line `"45, 2048"`
(two fields, `check_err = false`). -/
theorem malformed_line_renders_assertion_failure_witness :
    (pollCycle (some 0) waitingState ⟨.ok 0, .output (.strVal "45, 2048")⟩ 5).2.status = statusOK ∧
    renderServer "a" ⟨"h", false⟩ ⟨["45, 2048"], statusOK, some 5⟩ 5 =
      Except.error RenderErr.assertionError :=
  ⟨malformed_line_renders_assertion_failure.1 0 waitingState (.ok 0) 5 "45, 2048",
   malformed_line_renders_assertion_failure.2 "a" ⟨"h", false⟩
     ⟨["45, 2048"], statusOK, some 5⟩ 5 "45, 2048" rfl (by decide) (by decide)⟩

/-- C10: rendering is total only under a numeric-field precondition: for a
stored line that passes the active mode's arity check and is not flagged
faulted, a non-decimal `memory.used` (or `memory.total`) field — such as
`"N/A"` — makes `int()` inside `wrap_mib_to_gib` raise `ValueError`
instead of the row being produced. -/
theorem render_requires_numeric_memory :
    (∀ (name status : String) (cf : Bool) (idx : ℕ) (line : String) (p : ParsedGpu),
      parseGpuLine cf line = Except.ok p → p.broken = false →
      pyParseInt p.memUsed = none →
      renderGpuRow name cf status idx line = Except.error RenderErr.valueError) ∧
    (∀ (name status : String) (cf : Bool) (idx : ℕ) (line : String) (p : ParsedGpu) (v : ℤ),
      parseGpuLine cf line = Except.ok p → p.broken = false →
      pyParseInt p.memUsed = some v → pyParseInt p.memTotal = none →
      renderGpuRow name cf status idx line = Except.error RenderErr.valueError) := by
  constructor
  · intro name status cf idx line p hp hb hm
    simp [renderGpuRow, hp, hb, wrap_mib_to_gib, hm]
  · intro name status cf idx line p v hp hb hm ht
    simp [renderGpuRow, hp, hb, wrap_mib_to_gib, hm, ht]

/-- Witness for C10 at the concrete lines `"45, N/A, 8192"` and
`"45, 2048, N/A"` (arity fine, memory field non-numeric). -/
theorem render_requires_numeric_memory_witness :
    parseGpuLine false "45, N/A, 8192" = Except.ok ⟨"45", "N/A", "8192", false⟩ ∧
    renderGpuRow "a" false "OK" 0 "45, N/A, 8192" = Except.error RenderErr.valueError ∧
    renderGpuRow "a" false "OK" 0 "45, 2048, N/A" = Except.error RenderErr.valueError :=
  ⟨rfl,
   render_requires_numeric_memory.1 "a" "OK" false 0 "45, N/A, 8192"
     ⟨"45", "N/A", "8192", false⟩ rfl rfl rfl,
   render_requires_numeric_memory.2 "a" "OK" false 0 "45, 2048, N/A"
     ⟨"45", "2048", "N/A", false⟩ 2048 rfl rfl rfl rfl⟩

/-- C7 counterexample: the claim says that from the first poll attempt
onward the store holds exactly one entry per configured host; but each
entry is created inside its own host's `server_loop` task (bedsmi.py lines
15-16), and under asyncio a task only runs once the event loop is reached,
so the first host can complete its entry creation and a first poll cycle
while the second host's task has not yet created its entry (indeed the
very first `make_table()` call at line 133 runs before any task, against an
empty store — which is why line 86 supplies a default for missing hosts).
The trace below — host `a` initialises and polls before host `b` starts —
is well formed for the configuration `["a", "b"]`, yet after it the store
has no entry for `b`. -/
theorem store_lacks_host_at_first_poll :
    wfTrace ["a", "b"]
      [("a", LoopEv.initEntry),
       ("a", LoopEv.poll none ⟨.error (.otherError "x"), .output .nonStr⟩ 0)] ∧
    (runTrace
      [("a", LoopEv.initEntry),
       ("a", LoopEv.poll none ⟨.error (.otherError "x"), .output .nonStr⟩ 0)]).lookup "b" =
      none ∧
    "b" ∈ (["a", "b"] : List String) := by
  refine ⟨⟨?_, ?_⟩, by decide, by decide⟩
  · intro e he
    rcases List.mem_cons.mp he with rfl | he2
    · decide
    · rcases List.mem_cons.mp he2 with rfl | he3
      · decide
      · cases he3
  · intro l1 h conn env now l2 heq
    rcases l1 with _ | ⟨e1, l1⟩
    · simp at heq
    · rcases l1 with _ | ⟨e2, l1⟩
      · obtain ⟨h1, h2, -⟩ := by simpa using heq
        obtain ⟨rfl, -⟩ := h2
        simp [h1]
      · have hlen := congrArg List.length heq
        simp at hlen

/-- C7 amended: the store never holds an entry for a non-configured host;
once created, an entry survives every later event; each host's own entry
is created (as the default `Waiting` entry) before that host's first poll
in every well-formed trace; and once every configured host's loop has run
its entry creation, the store's keys are exactly the configured set.  What
fails in the original claim is only its global timing: a host's first poll
may occur before another host's loop has started, and at such an instant
the other host's entry is still missing (the renderer covers that window
with a default, bedsmi.py line 86). -/
theorem store_entry_lifecycle :
    (∀ (cfg : List String) (tr : List (String × LoopEv)),
      wfTrace cfg tr → ∀ p ∈ runTrace tr, p.1 ∈ cfg) ∧
    (∀ (cfg : List String) (tr l1 l2 : List (String × LoopEv)) (h : String)
       (conn : Option Session) (env : CycleEnv) (now : ℕ),
      wfTrace cfg tr → tr = l1 ++ (h, LoopEv.poll conn env now) :: l2 →
      ((runTrace l1).lookup h).isSome = true) ∧
    (∀ (tr tr2 : List (String × LoopEv)) (h : String),
      ((runTrace tr).lookup h).isSome = true →
      ((runTrace (tr ++ tr2)).lookup h).isSome = true) ∧
    (∀ (store : Store) (h : String),
      store.lookup h = none →
      (applyEv store (h, LoopEv.initEntry)).lookup h = some waitingState) ∧
    (∀ (cfg : List String) (tr : List (String × LoopEv)),
      wfTrace cfg tr → (∀ h ∈ cfg, (h, LoopEv.initEntry) ∈ tr) →
      ∀ h, ((runTrace tr).lookup h).isSome = true ↔ h ∈ cfg) := by
  refine ⟨?_, ?_, ?_, ?_, ?_⟩
  · intro cfg tr hwf p hp
    exact foldl_applyEv_keys_in cfg tr [] hwf.1 (by intro q hq; cases hq) p hp
  · intro cfg tr l1 l2 h conn env now hwf heq
    have hinit : (h, LoopEv.initEntry) ∈ l1 := hwf.2 l1 h conn env now l2 heq
    obtain ⟨s, t, rfl⟩ := List.append_of_mem hinit
    show (((s ++ (h, LoopEv.initEntry) :: t).foldl applyEv []).lookup h).isSome = true
    rw [List.foldl_append]
    show ((t.foldl applyEv (applyEv (s.foldl applyEv []) (h, LoopEv.initEntry))).lookup h).isSome = true
    exact runTrace_preserves_lookup t _ h (applyEv_init_lookup _ h)
  · intro tr tr2 h hs
    show (((tr ++ tr2).foldl applyEv []).lookup h).isSome = true
    rw [List.foldl_append]
    exact runTrace_preserves_lookup tr2 _ h hs
  · intro store h hn
    unfold applyEv
    dsimp only
    rw [if_neg (by simp [hn])]
    simp [List.lookup]
  · intro cfg tr hwf hall h
    constructor
    · intro hs
      obtain ⟨v, hv⟩ := Option.isSome_iff_exists.mp hs
      have hm := lookup_some_mem h (runTrace tr) hv
      exact foldl_applyEv_keys_in cfg tr [] hwf.1 (by intro q hq; cases hq) (h, v) hm
    · intro hc
      obtain ⟨s, t, rfl⟩ := List.append_of_mem (hall h hc)
      show (((s ++ (h, LoopEv.initEntry) :: t).foldl applyEv []).lookup h).isSome = true
      rw [List.foldl_append]
      show ((t.foldl applyEv
        (applyEv (s.foldl applyEv []) (h, LoopEv.initEntry))).lookup h).isSome = true
      exact runTrace_preserves_lookup t _ h (applyEv_init_lookup _ h)

/-- Witness for the amended C7 on the concrete two-host trace in which both
hosts initialise and host `a` polls: every stored key is configured, `a`'s
entry exists before its poll, an entry persists across a later event, a
fresh entry is the `Waiting` default, and the keys are exactly `{a, b}`
once both loops have started. -/
theorem store_entry_lifecycle_witness :
    (∀ p ∈ runTrace
        [("a", LoopEv.initEntry), ("b", LoopEv.initEntry),
         ("a", LoopEv.poll none ⟨.error (.otherError "x"), .output .nonStr⟩ 0)],
      p.1 ∈ (["a", "b"] : List String)) ∧
    ((runTrace [("a", LoopEv.initEntry), ("b", LoopEv.initEntry)]).lookup "a").isSome = true ∧
    ((runTrace
        ([("a", LoopEv.initEntry), ("b", LoopEv.initEntry)] ++
         [("a", LoopEv.poll none ⟨.error (.otherError "x"), .output .nonStr⟩ 0)])).lookup
        "a").isSome = true ∧
    (applyEv [] ("a", LoopEv.initEntry)).lookup "a" = some waitingState ∧
    (((runTrace
        [("a", LoopEv.initEntry), ("b", LoopEv.initEntry),
         ("a", LoopEv.poll none ⟨.error (.otherError "x"), .output .nonStr⟩ 0)]).lookup
        "b").isSome = true ↔ "b" ∈ (["a", "b"] : List String)) := by
  have hwf : wfTrace ["a", "b"]
      [("a", LoopEv.initEntry), ("b", LoopEv.initEntry),
       ("a", LoopEv.poll none ⟨.error (.otherError "x"), .output .nonStr⟩ 0)] := by
    constructor
    · intro e he
      rcases List.mem_cons.mp he with rfl | he2
      · decide
      · rcases List.mem_cons.mp he2 with rfl | he3
        · decide
        · rcases List.mem_cons.mp he3 with rfl | he4
          · decide
          · cases he4
    · intro l1 h conn env now l2 heq
      rcases l1 with _ | ⟨e1, l1⟩
      · simp at heq
      · rcases l1 with _ | ⟨e2, l1⟩
        · simp at heq
        · rcases l1 with _ | ⟨e3, l1⟩
          · obtain ⟨h1, h2, h3, -⟩ := by simpa using heq
            obtain ⟨rfl, -⟩ := h3
            simp [h1]
          · have hlen := congrArg List.length heq
            simp at hlen
  refine ⟨store_entry_lifecycle.1 ["a", "b"] _ hwf, ?_, ?_, ?_, ?_⟩
  · exact store_entry_lifecycle.2.1 ["a", "b"] _
      [("a", LoopEv.initEntry), ("b", LoopEv.initEntry)] [] "a" none
      ⟨.error (.otherError "x"), .output .nonStr⟩ 0 hwf rfl
  · exact store_entry_lifecycle.2.2.1
      [("a", LoopEv.initEntry), ("b", LoopEv.initEntry)]
      [("a", LoopEv.poll none ⟨.error (.otherError "x"), .output .nonStr⟩ 0)] "a"
      (by decide)
  · exact store_entry_lifecycle.2.2.2.1 [] "a" rfl
  · refine store_entry_lifecycle.2.2.2.2 ["a", "b"] _ hwf ?_ "b"
    intro h hc
    rcases List.mem_cons.mp hc with rfl | hc2
    · exact List.mem_cons_self _ _
    · rcases List.mem_cons.mp hc2 with rfl | hc3
      · exact List.mem_cons_of_mem _ (List.mem_cons_self _ _)
      · cases hc3

/-- C6 amended: at the start of a cycle the status is set to
`Connecting...` exactly when no live session exists; with a live session
the entry step leaves the whole stored observation unchanged (the source
has no `Refreshing` status). -/
theorem entry_status_connecting_only :
    (∀ st : ServerState, (entryStatus none st).status = statusConnecting) ∧
    (∀ (s : Session) (st : ServerState), entryStatus (some s) st = st) :=
  ⟨fun _ => rfl, fun _ _ => rfl⟩

end BedSmi
